import Mathlib

/-!
Shallow embedding of `src/src/pages/Index.tsx` (MedGemma clean UI): the form
schema (zod), the submit handler `onSubmit`, and the response-display logic,
together with theorems settling the specification claims.
-/

namespace MedGemma

/-- Characters treated as whitespace by the JavaScript `String.prototype.trim`
(ECMAScript WhiteSpace and LineTerminator code points). -/
def isJsWhitespace (c : Char) : Bool :=
  [' ', '\t', '\n', '\r', '\x0b', '\x0c', '\u00A0', '\u1680',
   '\u2000', '\u2001', '\u2002', '\u2003', '\u2004', '\u2005', '\u2006',
   '\u2007', '\u2008', '\u2009', '\u200A', '\u2028', '\u2029', '\u202F',
   '\u205F', '\u3000', '\uFEFF'].contains c

/-- JavaScript `s.trim()`: strip leading and trailing whitespace. -/
def jsTrim (s : String) : String :=
  String.mk (((s.toList.dropWhile isJsWhitespace).reverse.dropWhile isJsWhitespace).reverse)

/-- JSON values, as returned by `res.json()`. Numbers are modelled as integers
(no claim involves non-integral numbers). -/
inductive Json where
  | null : Json
  | bool : Bool → Json
  | num : Int → Json
  | str : String → Json
  | arr : List Json → Json
  | obj : List (String × Json) → Json

/-- Lower-case hexadecimal digit, used by the `\u00xx` escapes of
`JSON.stringify`. -/
def hexDigit (n : Nat) : String :=
  String.singleton (("0123456789abcdef").toList.getD n '0')

/-- How `JSON.stringify` renders one character inside a string literal. -/
def escapeChar (c : Char) : String :=
  if c = '"' then ("\\\"")
  else if c = '\\' then ("\\\\")
  else if c = '\x08' then ("\\b")
  else if c = '\t' then ("\\t")
  else if c = '\n' then ("\\n")
  else if c = '\x0c' then ("\\f")
  else if c = '\r' then ("\\r")
  else if c.toNat < 32 then ("\\u00") ++ hexDigit (c.toNat / 16) ++ hexDigit (c.toNat % 16)
  else String.singleton c

/-- `JSON.stringify` of a string value: quoted, with escapes. -/
def quoteStr (s : String) : String :=
  ("\"") ++ String.join (s.toList.map escapeChar) ++ ("\"")

mutual

/-- `JSON.stringify(v)` (no indentation argument): the compact serialization
used for the text-mode request body. -/
def stringifyCompact : Json → String
  | Json.null => ("null")
  | Json.bool true => ("true")
  | Json.bool false => ("false")
  | Json.num n => toString n
  | Json.str s => quoteStr s
  | Json.arr [] => ("[]")
  | Json.arr (x :: xs) => ("[") ++ stringifyCompact x ++ compactItems xs ++ ("]")
  | Json.obj [] => ("\x7b\x7d")
  | Json.obj ((k, v) :: kvs) =>
      ("\x7b") ++ quoteStr k ++ (":") ++ stringifyCompact v ++ compactFields kvs ++ ("\x7d")

/-- Remaining array items of a compact serialization, each preceded by a comma. -/
def compactItems : List Json → String
  | [] => ("")
  | x :: xs => (",") ++ stringifyCompact x ++ compactItems xs

/-- Remaining object fields of a compact serialization, each preceded by a comma. -/
def compactFields : List (String × Json) → String
  | [] => ("")
  | (k, v) :: kvs => (",") ++ quoteStr k ++ (":") ++ stringifyCompact v ++ compactFields kvs

end

/-- Indentation of depth `d` for `JSON.stringify(v, null, 2)`: `2 * d` spaces. -/
def pad (d : Nat) : String :=
  String.mk (List.replicate (2 * d) ' ')

mutual

/-- `JSON.stringify(v, null, 2)` at nesting depth `d`: the pretty-printed
serialization used when the payload has neither display field. -/
def stringifyAt (d : Nat) : Json → String
  | Json.null => ("null")
  | Json.bool true => ("true")
  | Json.bool false => ("false")
  | Json.num n => toString n
  | Json.str s => quoteStr s
  | Json.arr [] => ("[]")
  | Json.arr (x :: xs) =>
      ("[\n") ++ pad (d + 1) ++ stringifyAt (d + 1) x ++ prettyItems (d + 1) xs
        ++ ("\n") ++ pad d ++ ("]")
  | Json.obj [] => ("\x7b\x7d")
  | Json.obj ((k, v) :: kvs) =>
      ("\x7b\n") ++ pad (d + 1) ++ quoteStr k ++ (": ") ++ stringifyAt (d + 1) v
        ++ prettyFields (d + 1) kvs ++ ("\n") ++ pad d ++ ("\x7d")

/-- Remaining array items of the pretty serialization at depth `d`. -/
def prettyItems (d : Nat) : List Json → String
  | [] => ("")
  | x :: xs => (",\n") ++ pad d ++ stringifyAt d x ++ prettyItems d xs

/-- Remaining object fields of the pretty serialization at depth `d`. -/
def prettyFields (d : Nat) : List (String × Json) → String
  | [] => ("")
  | (k, v) :: kvs => (",\n") ++ pad d ++ quoteStr k ++ (": ") ++ stringifyAt d v ++ prettyFields d kvs

end

/-- `JSON.stringify(result, null, 2)`, as called on line 103 of `Index.tsx`. -/
def stringifyPretty (j : Json) : String :=
  stringifyAt 0 j

/-- Field lookup in a JSON object (the association list of a parsed JS object,
whose keys are distinct). -/
def objField (kvs : List (String × Json)) (k : String) : Option Json :=
  (kvs.find? fun p => p.1 == k).map Prod.snd

/-- JavaScript property access `result[k]`: throws a TypeError on `null`,
yields `undefined` (here `none`) on primitives and on objects lacking the key. -/
def getProp (k : String) : Json → Except String (Option Json)
  | Json.null => Except.error (("Cannot read properties of null (reading ") ++ k ++ (")"))
  | Json.obj kvs => Except.ok (objField kvs k)
  | _ => Except.ok none

/-- JavaScript truthiness of a JSON value. -/
def truthyVal : Json → Bool
  | Json.null => false
  | Json.bool b => b
  | Json.num n => n != 0
  | Json.str s => s != ("")
  | Json.arr _ => true
  | Json.obj _ => true

/-- JavaScript `v.trim()` on a JSON value: defined on strings, a TypeError
otherwise; `path` names the accessed expression in the error message. -/
def trimCall (path : String) : Json → Except String String
  | Json.str s => Except.ok (jsTrim s)
  | _ => Except.error (path ++ (".trim is not a function"))

/-- One branch `if (result.k) setResponse(result.k.trim())` of lines 98–101:
`some` when the guard is truthy (carrying the outcome of the `.trim()` call),
`none` when the guard is falsy or the property is absent. -/
def tryField (path : String) (v : Option Json) : Option (Except String String) :=
  match v with
  | some w => if truthyVal w then some (trimCall path w) else none
  | none => none

/-- Lines 98–104 of `Index.tsx`: the display string extracted from a parsed
success payload, or the message of the exception thrown while extracting it. -/
def extractDisplay (result : Json) : Except String String :=
  match getProp ("final_response") result with
  | Except.error e => Except.error e
  | Except.ok fr =>
    match tryField ("result.final_response") fr with
    | some r => r
    | none =>
      match getProp ("response") result with
      | Except.error e => Except.error e
      | Except.ok rp =>
        match tryField ("result.response") rp with
        | some r => r
        | none => Except.ok (stringifyPretty result)

/-- The inference mode radio button: `"text"` or `"image"`. -/
inductive Mode where
  | text : Mode
  | image : Mode
deriving DecidableEq

/-- The validated form data passed to `onSubmit` (the `FormData` type inferred
from `formSchema`; `prompt` and `system` arrive already trimmed by the zod
resolver). -/
structure FormData where
  mode : Mode
  prompt : String
  system : String
  chainedMode : Bool
deriving DecidableEq

/-- A selected image file: an opaque binary blob with a name. -/
structure File where
  name : String
  content : List Nat
deriving DecidableEq

/-- A value appended to a `FormData` multipart body: a string field or a file. -/
inductive PartValue where
  | str : String → PartValue
  | file : File → PartValue
deriving DecidableEq

/-- The `body` argument of `fetch`: a JSON string or a multipart form. -/
inductive Body where
  | json : String → Body
  | multipart : List (String × PartValue) → Body
deriving DecidableEq

/-- The request handed to `fetch`, with the headers explicitly set by the
client in insertion order. -/
structure Request where
  url : String
  method : String
  headers : List (String × String)
  body : Body
deriving DecidableEq

/-- A transient notification emitted through `toast`. -/
inductive Toast where
  | success : String → Toast
  | error : String → Toast
deriving DecidableEq

/-- An HTTP response as observed by the handler: status, the text read by
`res.text()`, and the outcome of `res.json()` (`Except.error` when the body is
not parsable JSON, carrying the SyntaxError message). -/
structure HttpResponse where
  status : Nat
  bodyText : String
  jsonBody : Except String Json

/-- What `await fetch req` does: resolves to a response, or rejects with a
network error message. -/
inductive FetchOutcome where
  | networkError : String → FetchOutcome
  | httpResponse : HttpResponse → FetchOutcome

/-- The observable outcome of one `onSubmit` invocation: the network request
issued (if any), the successive `setResponse` writes in order, the final
`response` state, the final `isLoading` state, and the toasts emitted. -/
structure SubmitResult where
  request : Option Request
  responseWrites : List String
  response : String
  isLoading : Bool
  toasts : List Toast

/-- Lines 91–110 of `Index.tsx`: turn the fetch outcome into the rendered
response string and the emitted toasts. A non-2xx status throws
`HTTP error! status: ..., message: ...`; a 2xx response is parsed and the
display string extracted; every thrown error is caught and rendered as
`Error: ` plus its message, with a failure toast. -/
def processOutcome : FetchOutcome → String × List Toast
  | FetchOutcome.networkError msg =>
      (("Error: ") ++ msg, [Toast.error ("Failed to get response")])
  | FetchOutcome.httpResponse r =>
      if 200 ≤ r.status ∧ r.status ≤ 299 then
        match r.jsonBody with
        | Except.error msg => (("Error: ") ++ msg, [Toast.error ("Failed to get response")])
        | Except.ok result =>
          match extractDisplay result with
          | Except.ok s => (s, [Toast.success ("Response received successfully")])
          | Except.error msg => (("Error: ") ++ msg, [Toast.error ("Failed to get response")])
      else
        (("Error: HTTP error! status: ") ++ toString r.status ++ (", message: ") ++ r.bodyText,
         [Toast.error ("Failed to get response")])

/-- Lines 80–82 of `Index.tsx`: the text-mode request. Body is
`JSON.stringify(\x7b prompt, system \x7d)`; headers are the `accept` header
plus an explicit `Content-Type: application/json`. -/
def textRequest (d : FormData) : Request :=
  { url := if d.chainedMode then ("/predict/chained_text") else ("/predict/text")
    method := ("POST")
    headers := [(("accept"), ("application/json")), (("Content-Type"), ("application/json"))]
    body := Body.json (stringifyCompact (Json.obj
      [(("prompt"), Json.str d.prompt), (("system"), Json.str d.system)])) }

/-- Lines 73–78 and 87 of `Index.tsx`: the image-mode request. Body is a
`FormData` multipart form with exactly the fields `prompt` and `image`;
the only header set by the client is `accept` (no `Content-Type`). -/
def imageRequest (d : FormData) (img : File) : Request :=
  { url := if d.chainedMode then ("/predict/chained_image") else ("/predict/image")
    method := ("POST")
    headers := [(("accept"), ("application/json"))]
    body := Body.multipart [(("prompt"), PartValue.str d.prompt), (("image"), PartValue.file img)] }

/-- Issue `req`, handle the outcome; the response panel was cleared first, and
the `finally` block clears the loading flag. -/
def runFetch (req : Request) (net : Request → FetchOutcome) : SubmitResult :=
  let out := processOutcome (net req)
  { request := some req
    responseWrites := [(""), out.1]
    response := out.1
    isLoading := false
    toasts := out.2 }

/-- Lines 57–114 of `Index.tsx`: the submit handler. Sets the loading flag,
clears the response, short-circuits with an error toast when mode is image and
no file is selected, otherwise issues the one request determined by
`(mode, chainedMode)` and processes its outcome. -/
def onSubmit (data : FormData) (selectedImage : Option File)
    (net : Request → FetchOutcome) : SubmitResult :=
  match data.mode, selectedImage with
  | Mode.image, none =>
      { request := none
        responseWrites := [("")]
        response := ("")
        isLoading := false
        toasts := [Toast.error ("Please select an image before submitting")] }
  | Mode.image, some img => runFetch (imageRequest data img) net
  | Mode.text, _ => runFetch (textRequest data) net

/-- The raw form values before validation (what the user typed). -/
structure RawForm where
  mode : Mode
  prompt : String
  system : String
  chainedMode : Bool
deriving DecidableEq

/-- Line 17 of `Index.tsx`: `z.string().trim().min(1, "Prompt is required")
.max(2000, "Prompt must be less than 2000 characters")`. The zod `.trim()`
transforms the value first; `min`/`max` then check the trimmed value. -/
def parsePrompt (s : String) : Except String String :=
  let t := jsTrim s
  if t.length < 1 then Except.error ("Prompt is required")
  else if t.length > 2000 then Except.error ("Prompt must be less than 2000 characters")
  else Except.ok t

/-- Line 18 of `Index.tsx`: `z.string().trim().max(500, "System message must be
less than 500 characters")`. -/
def parseSystem (s : String) : Except String String :=
  let t := jsTrim s
  if t.length > 500 then Except.error ("System message must be less than 500 characters")
  else Except.ok t

/-- The list of error messages of a field check, empty when the check passes. -/
def errsOf (e : Except String String) : List String :=
  match e with
  | Except.ok _ => []
  | Except.error m => [m]

/-- Lines 15–20 of `Index.tsx`: validation of the whole form against
`formSchema`. Succeeds with transformed (trimmed) data only when every field
check passes; otherwise collects the issue messages. -/
def parseForm (r : RawForm) : Except (List String) FormData :=
  match parsePrompt r.prompt, parseSystem r.system with
  | Except.ok p, Except.ok sys =>
      Except.ok { mode := r.mode, prompt := p, system := sys, chainedMode := r.chainedMode }
  | ep, es => Except.error (errsOf ep ++ errsOf es)

/-- Line 139 of `Index.tsx`: `form.handleSubmit(onSubmit)`. The handler runs
only when validation succeeds, and receives the parsed data. -/
def handleSubmit (r : RawForm) (selectedImage : Option File)
    (net : Request → FetchOutcome) : Option SubmitResult :=
  match parseForm r with
  | Except.error _ => none
  | Except.ok d => some (onSubmit d selectedImage net)

/-- Concrete text-mode form data, as in the spec example. -/
def sampleText : FormData :=
  { mode := Mode.text, prompt := ("Hello"), system := ("Sys"), chainedMode := false }

/-- Concrete image-mode form data with chained mode on. -/
def sampleImageData : FormData :=
  { mode := Mode.image, prompt := ("Describe the scan"), system := ("Sys"), chainedMode := true }

/-- A concrete selected file. -/
def sampleFile : File :=
  { name := ("scan.png"), content := [137, 80, 78, 71] }

/-- A network that rejects every request (fetch throws). -/
def offlineNet : Request → FetchOutcome :=
  fun _ => FetchOutcome.networkError ("offline")

/-- A network answering 500 with body `server error`. -/
def err500Net : Request → FetchOutcome :=
  fun _ => FetchOutcome.httpResponse
    { status := 500
      bodyText := ("server error")
      jsonBody := Except.error ("Unexpected token s") }

/-- A network answering 200 with payload `\x7b"final_response":"Diagnosis: X"\x7d`. -/
def diagPayload : List (String × Json) :=
  [(("final_response"), Json.str ("Diagnosis: X"))]

/-- The 200-response network serving `diagPayload`. -/
def diagNet : Request → FetchOutcome :=
  fun _ => FetchOutcome.httpResponse
    { status := 200
      bodyText := ("")
      jsonBody := Except.ok (Json.obj diagPayload) }

/-- A payload whose `final_response` is present but the empty string, with a
non-empty `response` field. -/
def emptyFinalPayload : List (String × Json) :=
  [(("final_response"), Json.str ("")), (("response"), Json.str ("ok"))]

/-- The 200-response network serving `emptyFinalPayload`. -/
def emptyFinalNet : Request → FetchOutcome :=
  fun _ => FetchOutcome.httpResponse
    { status := 200
      bodyText := ("")
      jsonBody := Except.ok (Json.obj emptyFinalPayload) }

/-- A payload with neither `final_response` nor `response`. -/
def neitherPayload : List (String × Json) :=
  [(("status"), Json.str ("queued")), (("id"), Json.num 7)]

/-- The 200-response network serving `neitherPayload`. -/
def neitherNet : Request → FetchOutcome :=
  fun _ => FetchOutcome.httpResponse
    { status := 200
      bodyText := ("")
      jsonBody := Except.ok (Json.obj neitherPayload) }

/-- A raw prompt of 2001 characters: one letter followed by 2000 spaces. Its
raw length exceeds 2000, but its trimmed length is 1. -/
def longPrompt : String :=
  String.mk ('a' :: List.replicate 2000 ' ')

/-- In payload `kvs` the string field `k` is blank: absent, or present as the
empty string (the falsy strings of JavaScript). -/
def strFieldBlank (kvs : List (String × Json)) (k : String) : Prop :=
  objField kvs k = none ∨ objField kvs k = some (Json.str (""))

/-- Helper: the request issued by `onSubmit`, by case on mode and file. -/
theorem onSubmit_request_eq (d : FormData) (img : Option File) (net : Request → FetchOutcome) :
    (onSubmit d img net).request =
      match d.mode, img with
      | Mode.image, none => none
      | Mode.image, some f => some (imageRequest d f)
      | Mode.text, _ => some (textRequest d) := by
  cases hm : d.mode <;> cases img <;> simp [onSubmit, hm, runFetch]

/-- Helper: when `onSubmit` issues a request, the whole run equals `runFetch`
of that request, so the rendered response and the toasts are exactly the
processing of the network's answer to it. -/
theorem onSubmit_processes (d : FormData) (img : Option File) (net : Request → FetchOutcome)
    (req : Request) (h : (onSubmit d img net).request = some req) :
    onSubmit d img net = runFetch req net := by
  cases hm : d.mode with
  | text =>
      have hr : textRequest d = req := by
        rw [onSubmit_request_eq] at h
        simpa [hm] using h
      simp [onSubmit, hm, hr]
  | image =>
      cases img with
      | none =>
          rw [onSubmit_request_eq] at h
          simp [hm] at h
      | some f =>
          have hr : imageRequest d f = req := by
            rw [onSubmit_request_eq] at h
            simpa [hm] using h
          simp [onSubmit, hm, hr]

/-- Helper: `processOutcome` always emits exactly one toast. -/
theorem processOutcome_one_toast (o : FetchOutcome) : (processOutcome o).2.length = 1 := by
  cases o with
  | networkError m => rfl
  | httpResponse r =>
      by_cases hs : 200 ≤ r.status ∧ r.status ≤ 299
      · cases hj : r.jsonBody with
        | error m => simp [processOutcome, hs, hj]
        | ok result =>
            cases he : extractDisplay result with
            | ok s => simp [processOutcome, hs, hj, he]
            | error m => simp [processOutcome, hs, hj, he]
      · simp [processOutcome, hs]

/-- C1: for every valid submission the request URL is determined exactly by
the pair (mode, chainedMode): text/unchained posts to `/predict/text`,
text/chained to `/predict/chained_text`, image/unchained to `/predict/image`,
image/chained to `/predict/chained_image`. -/
theorem endpoint_determined_by_mode_and_chained (d : FormData) (img : Option File)
    (net : Request → FetchOutcome) (req : Request)
    (h : (onSubmit d img net).request = some req) :
    req.url =
      match d.mode, d.chainedMode with
      | Mode.text, false => ("/predict/text")
      | Mode.text, true => ("/predict/chained_text")
      | Mode.image, false => ("/predict/image")
      | Mode.image, true => ("/predict/chained_image") := by
  rw [onSubmit_request_eq] at h
  cases hm : d.mode <;> cases img <;> cases hc : d.chainedMode <;>
    simp [hm, hc] at h <;> simp [← h, textRequest, imageRequest, hc]

/-- Witness for C1 at a concrete input: text mode, unchained. -/
theorem endpoint_witness :
    (textRequest sampleText).url = ("/predict/text") :=
  endpoint_determined_by_mode_and_chained sampleText none offlineNet
    (textRequest sampleText) rfl

/-- C3: a submission with mode image and no selected file short-circuits: it
emits the one error toast, issues no network call, clears the loading flag and
returns with the (cleared) response intact. -/
theorem image_without_file_short_circuits (d : FormData) (net : Request → FetchOutcome)
    (h : d.mode = Mode.image) :
    onSubmit d none net =
      { request := none
        responseWrites := [("")]
        response := ("")
        isLoading := false
        toasts := [Toast.error ("Please select an image before submitting")] } := by
  simp [onSubmit, h]

/-- Witness for C3 at a concrete input. -/
theorem image_without_file_witness :
    onSubmit sampleImageData none offlineNet =
      { request := none
        responseWrites := [("")]
        response := ("")
        isLoading := false
        toasts := [Toast.error ("Please select an image before submitting")] } :=
  image_without_file_short_circuits sampleImageData offlineNet rfl

/-- C9: every run of the submit handler finishes with the loading flag false
and emits exactly one notification. -/
theorem loading_cleared_and_one_toast (d : FormData) (img : Option File)
    (net : Request → FetchOutcome) :
    (onSubmit d img net).isLoading = false ∧ (onSubmit d img net).toasts.length = 1 := by
  cases hm : d.mode <;> cases img <;>
    simp [onSubmit, hm, runFetch, processOutcome_one_toast]

/-- C10: every run of the submit handler writes the empty string to the
response panel first, so even the image-mode short-circuit (no network call)
leaves the previously rendered response erased. -/
theorem response_cleared_first (d : FormData) (img : Option File)
    (net : Request → FetchOutcome) :
    (onSubmit d img net).responseWrites.head? = some ("") ∧
    (d.mode = Mode.image → img = none →
      (onSubmit d img net).request = none ∧ (onSubmit d img net).response = ("")) := by
  cases hm : d.mode <;> cases img <;> simp [onSubmit, hm, runFetch]

/-- Witness for C10 at a concrete input: the rejected image submission has its
response cleared and no request issued. -/
theorem response_cleared_witness :
    (onSubmit sampleImageData none offlineNet).responseWrites.head? = some ("") ∧
    (onSubmit sampleImageData none offlineNet).request = none ∧
    (onSubmit sampleImageData none offlineNet).response = ("") :=
  ⟨(response_cleared_first sampleImageData none offlineNet).1,
   (response_cleared_first sampleImageData none offlineNet).2 rfl rfl⟩

/-- C8: in image mode the system field is ignored: two submissions differing
only in `system` issue the identical request and produce the identical
outcome against the same network. -/
theorem system_ignored_in_image_mode (d : FormData) (sys : String) (img : Option File)
    (net : Request → FetchOutcome) (h : d.mode = Mode.image) :
    onSubmit { d with system := sys } img net = onSubmit d img net := by
  cases img <;> simp [onSubmit, h, runFetch, imageRequest]

/-- Witness for C8 at a concrete input. -/
theorem system_ignored_witness :
    onSubmit { sampleImageData with system := ("Other system") } (some sampleFile) offlineNet =
      onSubmit sampleImageData (some sampleFile) offlineNet :=
  system_ignored_in_image_mode sampleImageData ("Other system") (some sampleFile) offlineNet rfl

/-- C4: when the network answers any issued request with a non-2xx status `s`
and body text `b`, the submission ends in the error path: the rendered output
is `Error: HTTP error! status: s, message: b` and the failure toast is
emitted. -/
theorem http_error_renders_status_and_body (d : FormData) (img : Option File)
    (net : Request → FetchOutcome) (req : Request) (s : Nat) (b : String)
    (jb : Except String Json)
    (h : (onSubmit d img net).request = some req)
    (hnet : net req = FetchOutcome.httpResponse { status := s, bodyText := b, jsonBody := jb })
    (hs : ¬(200 ≤ s ∧ s ≤ 299)) :
    (onSubmit d img net).response =
      ("Error: HTTP error! status: ") ++ toString s ++ (", message: ") ++ b ∧
    (onSubmit d img net).toasts = [Toast.error ("Failed to get response")] := by
  rw [onSubmit_processes d img net req h]
  simp [runFetch, hnet, processOutcome, hs]

/-- Witness for C4 at a concrete input: a 500 answer with body `server error`
renders `Error: HTTP error! status: 500, message: server error`. -/
theorem http_error_witness :
    (onSubmit sampleText none err500Net).response =
      ("Error: HTTP error! status: 500, message: server error") ∧
    (onSubmit sampleText none err500Net).toasts = [Toast.error ("Failed to get response")] := by
  have h := http_error_renders_status_and_body sampleText none err500Net
    (textRequest sampleText) 500 ("server error") (Except.error ("Unexpected token s"))
    rfl rfl (by decide)
  exact ⟨h.1, h.2⟩

/-- C6: every text-mode submission issues a request whose body is the JSON
serialization of the object with exactly the fields `prompt` and `system`
taken from the form data, and whose headers carry
`Content-Type: application/json`. -/
theorem text_request_body_and_header (d : FormData) (img : Option File)
    (net : Request → FetchOutcome) (h : d.mode = Mode.text) :
    ∃ req, (onSubmit d img net).request = some req ∧
      req.body = Body.json (stringifyCompact (Json.obj
        [(("prompt"), Json.str d.prompt), (("system"), Json.str d.system)])) ∧
      (("Content-Type"), ("application/json")) ∈ req.headers := by
  refine ⟨textRequest d, ?_, rfl, by simp [textRequest]⟩
  rw [onSubmit_request_eq]
  simp [h]

/-- Witness for C6 at a concrete input: prompt `Hello`, system `Sys` serialize
to exactly `\x7b"prompt":"Hello","system":"Sys"\x7d`. -/
theorem text_request_witness :
    ∃ req, (onSubmit sampleText none offlineNet).request = some req ∧
      req.body = Body.json ("\x7b\"prompt\":\"Hello\",\"system\":\"Sys\"\x7d") ∧
      (("Content-Type"), ("application/json")) ∈ req.headers := by
  obtain ⟨req, h1, h2, h3⟩ := text_request_body_and_header sampleText none offlineNet rfl
  refine ⟨req, h1, ?_, h3⟩
  rw [h2]
  rfl

/-- C7: every image-mode submission with a selected file issues a request
whose body is a multipart form with exactly the fields `prompt` and `image`
(the binary file), and whose client-set headers contain no `Content-Type`. -/
theorem image_request_multipart_no_content_type (d : FormData) (f : File)
    (net : Request → FetchOutcome) (h : d.mode = Mode.image) :
    ∃ req, (onSubmit d (some f) net).request = some req ∧
      req.body = Body.multipart
        [(("prompt"), PartValue.str d.prompt), (("image"), PartValue.file f)] ∧
      req.headers = [(("accept"), ("application/json"))] ∧
      ∀ p ∈ req.headers, p.1 ≠ ("Content-Type") := by
  refine ⟨imageRequest d f, ?_, rfl, rfl, by simp [imageRequest]⟩
  rw [onSubmit_request_eq]
  simp [h]

/-- Witness for C7 at a concrete input: chained image mode posts a multipart
body with the `prompt` and `image` fields and no `Content-Type` header. -/
theorem image_request_witness :
    ∃ req, (onSubmit sampleImageData (some sampleFile) offlineNet).request = some req ∧
      req.body = Body.multipart
        [(("prompt"), PartValue.str ("Describe the scan")), (("image"), PartValue.file sampleFile)] ∧
      req.headers = [(("accept"), ("application/json"))] ∧
      ∀ p ∈ req.headers, p.1 ≠ ("Content-Type") := by
  obtain ⟨req, h1, h2, h3, h4⟩ :=
    image_request_multipart_no_content_type sampleImageData sampleFile offlineNet rfl
  exact ⟨req, h1, h2, h3, h4⟩

/-- Helper: the display extracted from an object payload whose `final_response`
field is a non-empty string is that string, trimmed. -/
theorem extractDisplay_final (kvs : List (String × Json)) (t : String)
    (hf : objField kvs ("final_response") = some (Json.str t)) (ht : t ≠ ("")) :
    extractDisplay (Json.obj kvs) = Except.ok (jsTrim t) := by
  simp [extractDisplay, getProp, hf, tryField, truthyVal, ht, trimCall]

/-- Helper: with `final_response` blank and `response` a non-empty string, the
display is the trimmed `response`. -/
theorem extractDisplay_response (kvs : List (String × Json)) (t : String)
    (hb : strFieldBlank kvs ("final_response"))
    (hr : objField kvs ("response") = some (Json.str t)) (ht : t ≠ ("")) :
    extractDisplay (Json.obj kvs) = Except.ok (jsTrim t) := by
  cases hb with
  | inl h0 => simp [extractDisplay, getProp, h0, hr, tryField, truthyVal, ht, trimCall]
  | inr h0 => simp [extractDisplay, getProp, h0, hr, tryField, truthyVal, ht, trimCall]

/-- Helper: with both fields blank, the display is the pretty-printed payload. -/
theorem extractDisplay_pretty (kvs : List (String × Json))
    (hb1 : strFieldBlank kvs ("final_response")) (hb2 : strFieldBlank kvs ("response")) :
    extractDisplay (Json.obj kvs) = Except.ok (stringifyPretty (Json.obj kvs)) := by
  cases hb1 with
  | inl h1 =>
      cases hb2 with
      | inl h2 => simp [extractDisplay, getProp, h1, h2, tryField, truthyVal]
      | inr h2 => simp [extractDisplay, getProp, h1, h2, tryField, truthyVal]
  | inr h1 =>
      cases hb2 with
      | inl h2 => simp [extractDisplay, getProp, h1, h2, tryField, truthyVal]
      | inr h2 => simp [extractDisplay, getProp, h1, h2, tryField, truthyVal]

/-- Helper: on a 2xx answer whose parsed payload extracts a display string,
the submission renders that string and toasts success. -/
theorem onSubmit_success_display (d : FormData) (img : Option File)
    (net : Request → FetchOutcome) (req : Request) (s : Nat) (b : String)
    (result : Json) (out : String)
    (h : (onSubmit d img net).request = some req)
    (hnet : net req = FetchOutcome.httpResponse
      { status := s, bodyText := b, jsonBody := Except.ok result })
    (hok : 200 ≤ s ∧ s ≤ 299)
    (he : extractDisplay result = Except.ok out) :
    (onSubmit d img net).response = out := by
  rw [onSubmit_processes d img net req h]
  simp [runFetch, hnet, processOutcome, hok.1, hok.2, he]

/-- C2 (amended): for every successful (2xx, JSON-parsable) response whose
payload is an object in which the `final_response` and `response` fields, when
present, are strings, the displayed text is chosen by priority on non-empty
(truthy) fields: the trimmed `final_response` when that field is present and
non-empty, else the trimmed `response` when present and non-empty, else the
pretty-printed JSON of the whole payload. (As stated the claim keyed the
priority on mere presence; the code keys it on JavaScript truthiness.) -/
theorem success_display_priority (d : FormData) (img : Option File)
    (net : Request → FetchOutcome) (req : Request) (s : Nat) (b : String)
    (kvs : List (String × Json))
    (h : (onSubmit d img net).request = some req)
    (hnet : net req = FetchOutcome.httpResponse
      { status := s, bodyText := b, jsonBody := Except.ok (Json.obj kvs) })
    (hok : 200 ≤ s ∧ s ≤ 299) :
    (∀ t, objField kvs ("final_response") = some (Json.str t) → t ≠ ("") →
      (onSubmit d img net).response = jsTrim t) ∧
    (∀ t, strFieldBlank kvs ("final_response") →
      objField kvs ("response") = some (Json.str t) → t ≠ ("") →
      (onSubmit d img net).response = jsTrim t) ∧
    (strFieldBlank kvs ("final_response") → strFieldBlank kvs ("response") →
      (onSubmit d img net).response = stringifyPretty (Json.obj kvs)) := by
  refine ⟨?_, ?_, ?_⟩
  · intro t hf ht
    exact onSubmit_success_display d img net req s b (Json.obj kvs) (jsTrim t) h hnet hok
      (extractDisplay_final kvs t hf ht)
  · intro t hb hr ht
    exact onSubmit_success_display d img net req s b (Json.obj kvs) (jsTrim t) h hnet hok
      (extractDisplay_response kvs t hb hr ht)
  · intro hb1 hb2
    exact onSubmit_success_display d img net req s b (Json.obj kvs) _ h hnet hok
      (extractDisplay_pretty kvs hb1 hb2)

/-- Witness for C2 at concrete inputs: the payload
`\x7b"final_response":"Diagnosis: X"\x7d` renders exactly `Diagnosis: X`, and a
payload with neither key renders as its pretty-printed JSON. -/
theorem success_display_witness :
    (onSubmit sampleText none diagNet).response = ("Diagnosis: X") ∧
    (onSubmit sampleText none neitherNet).response = stringifyPretty (Json.obj neitherPayload) := by
  constructor
  · have h := (success_display_priority sampleText none diagNet (textRequest sampleText)
      200 ("") diagPayload rfl rfl (by decide)).1 ("Diagnosis: X") rfl (by decide)
    exact h.trans (by decide)
  · exact (success_display_priority sampleText none neitherNet (textRequest sampleText)
      200 ("") neitherPayload rfl rfl (by decide)).2.2 (Or.inl rfl) (Or.inl rfl)

/-- Counterexample to C2 as stated: in the payload
`\x7b"final_response":"","response":"ok"\x7d` the field `final_response` is
present, yet the rendered text is `ok` (the trimmed `response`), not the
trimmed `final_response` (the empty string): the code keys the display
priority on truthiness, not on presence. -/
theorem success_display_counterexample :
    objField emptyFinalPayload ("final_response") = some (Json.str ("")) ∧
    (onSubmit sampleText none emptyFinalNet).response = ("ok") ∧
    jsTrim ("") ≠ ("ok") := by
  exact ⟨rfl, rfl, by decide⟩

/-- C5 (amended): a prompt whose trimmed form is empty is rejected with the
message `Prompt is required`; a prompt whose trimmed form is longer than 2000
characters is rejected; and the submit handler runs only for prompts whose
trimmed length is between 1 and 2000. (As stated the claim rejected every
prompt of raw length over 2000; zod trims before checking the maximum, so only
the trimmed length is bounded.) -/
theorem prompt_validation_bounds (r : RawForm) :
    ((jsTrim r.prompt).length = 0 →
      ∃ msgs, parseForm r = Except.error msgs ∧ ("Prompt is required") ∈ msgs) ∧
    (2000 < (jsTrim r.prompt).length → ∀ d, parseForm r ≠ Except.ok d) ∧
    (∀ img net res, handleSubmit r img net = some res →
      1 ≤ (jsTrim r.prompt).length ∧ (jsTrim r.prompt).length ≤ 2000) := by
  refine ⟨?_, ?_, ?_⟩
  · intro h0
    have hp : parsePrompt r.prompt = Except.error ("Prompt is required") := by
      simp [parsePrompt, h0]
    refine ⟨("Prompt is required") :: errsOf (parseSystem r.system), ?_, List.mem_cons_self _ _⟩
    simp [parseForm, hp, errsOf]
  · intro hlong d hok
    have hp : parsePrompt r.prompt = Except.error ("Prompt must be less than 2000 characters") := by
      have h1 : ¬(jsTrim r.prompt).length < 1 := by omega
      simp [parsePrompt, h1, hlong]
    simp [parseForm, hp] at hok
  · intro img net res hs
    cases hp : parsePrompt r.prompt with
    | error m => simp [handleSubmit, parseForm, hp] at hs
    | ok p =>
        simp only [parsePrompt] at hp
        split_ifs at hp with h1 h2
        omega

/-- Witness for C5 at concrete inputs: a whitespace-only prompt is rejected
with the required message, and a plain five-letter prompt reaches the handler
within the bounds. -/
theorem prompt_validation_witness :
    (∃ msgs, parseForm { mode := Mode.text, prompt := ("   "), system := (""), chainedMode := false } =
        Except.error msgs ∧ ("Prompt is required") ∈ msgs) ∧
    (1 ≤ (jsTrim ("Hello")).length ∧ (jsTrim ("Hello")).length ≤ 2000) := by
  constructor
  · exact (prompt_validation_bounds
      { mode := Mode.text, prompt := ("   "), system := (""), chainedMode := false }).1 (by decide)
  · exact (prompt_validation_bounds
      { mode := Mode.text, prompt := ("Hello"), system := (""), chainedMode := false }).2.2
      none offlineNet _ rfl

/-- Helper: dropping while `p` holds skips a replicate block of a satisfying
element. -/
theorem dropWhile_replicate_append (p : Char → Bool) (c : Char) (h : p c = true)
    (n : Nat) (l : List Char) :
    List.dropWhile p (List.replicate n c ++ l) = List.dropWhile p l := by
  induction n with
  | zero => simp
  | succ k ih => simp [List.replicate_succ, List.dropWhile_cons, h, ih]

/-- Helper: trimming the 2001-character prompt leaves the single letter. -/
theorem jsTrim_longPrompt : jsTrim longPrompt = ("a") := by
  have h1 : jsTrim longPrompt = String.mk (((('a' :: List.replicate 2000 ' ').dropWhile
      isJsWhitespace).reverse.dropWhile isJsWhitespace).reverse) := rfl
  rw [h1]
  rw [List.dropWhile_cons]
  have hna : isJsWhitespace 'a' = false := rfl
  have hws : isJsWhitespace ' ' = true := rfl
  rw [hna]
  simp only [Bool.false_eq_true, if_false, List.reverse_cons, List.reverse_replicate]
  rw [dropWhile_replicate_append isJsWhitespace ' ' hws]
  rfl

/-- Counterexample to C5 as stated: this raw prompt has 2001 characters (one
letter and 2000 trailing spaces), yet validation accepts it, parsing it to the
one-character prompt `a`: zod trims before checking the maximum length. -/
theorem prompt_validation_counterexample :
    longPrompt.length = 2001 ∧
    parseForm { mode := Mode.text, prompt := longPrompt, system := (""), chainedMode := false } =
      Except.ok { mode := Mode.text, prompt := ("a"), system := (""), chainedMode := false } := by
  constructor
  · have h : longPrompt.length = ('a' :: List.replicate 2000 ' ').length := rfl
    rw [h, List.length_cons, List.length_replicate]
  · have ht : jsTrim longPrompt = ("a") := jsTrim_longPrompt
    simp only [parseForm, parsePrompt, parseSystem, ht]
    rfl

end MedGemma
